import Mathlib

/-!
Verification of the Pilluminate LED-controller core logic: a shallow
embedding of the per-LED state machine (src/VirtualLED.cpp) and the
collection manager (src/UserInterface.cpp), with theorems checking the
documented behavior against the embedded code.
-/

namespace Pilluminate

/-- RGBA color value, modelling QColor by its four components.
Qt transparent is (0,0,0,0); Qt white is (255,255,255,255). -/
structure Color where
  r : Nat
  g : Nat
  b : Nat
  a : Nat
deriving DecidableEq, Repr

/-- Qt transparent: all components zero. -/
def Color.transparent : Color := ⟨0, 0, 0, 0⟩

/-- Qt white. -/
def Color.white : Color := ⟨255, 255, 255, 255⟩

/-- Qt red, used as a sample picked color. -/
def Color.red : Color := ⟨255, 0, 0, 255⟩

/-- State of a QTimer: whether it is running and its interval in
milliseconds. A QTimer constructed without setSingleShot repeats, so
firing does not deactivate it. -/
structure QTimerState where
  active : Bool
  interval : Int
deriving DecidableEq, Repr

/-- QTimer start(ms): the timer becomes active with the given interval. -/
def QTimerState.start (_t : QTimerState) (ms : Int) : QTimerState := ⟨true, ms⟩

/-- QTimer stop(): the timer becomes inactive; the interval is retained. -/
def QTimerState.stop (t : QTimerState) : QTimerState := ⟨false, t.interval⟩

/-- A freshly constructed QTimer: not running. -/
def QTimerState.initial : QTimerState := ⟨false, 0⟩

/-- The VirtualLED widget state: the fields of class VirtualLED in
src/VirtualLED.h lines 148-154 (currentColor, ledId, state, blinkOn,
blinkTimer, blinkSpeed, offTimer). -/
structure VirtualLED where
  currentColor : Color
  ledId : Int
  state : Bool
  blinkOn : Bool
  blinkTimer : QTimerState
  blinkSpeed : Int
  offTimer : QTimerState
deriving DecidableEq, Repr

/-- Constructor VirtualLED::VirtualLED (src/VirtualLED.cpp lines 31-50):
color transparent, state false, blinkOn true, blinkSpeed 0, both timers
stopped. The blinkTimer timeout toggles blinkOn; the offTimer timeout
calls turnOff (modelled by fireBlinkTimer and fireOffTimer below). -/
def mkVirtualLED (id : Int) : VirtualLED :=
  { currentColor := Color.transparent
    ledId := id
    state := false
    blinkOn := true
    blinkTimer := QTimerState.initial
    blinkSpeed := 0
    offTimer := QTimerState.initial }

/-- VirtualLED::setColor (src/VirtualLED.cpp lines 57-63): assigns the
color and re-derives state as (color != transparent). Touches nothing
else (timers and blink phase are left as they were). -/
def VirtualLED.setColor (led : VirtualLED) (color : Color) : VirtualLED :=
  { led with currentColor := color, state := color != Color.transparent }

/-- VirtualLED::getId (src/VirtualLED.cpp lines 70-72). -/
def VirtualLED.getId (led : VirtualLED) : Int := led.ledId

/-- VirtualLED::setId (src/VirtualLED.cpp lines 79-81). -/
def VirtualLED.setId (led : VirtualLED) (newId : Int) : VirtualLED :=
  { led with ledId := newId }

/-- VirtualLED::isOn (src/VirtualLED.cpp lines 88-90): the LED is on
iff its current color is not transparent. -/
def VirtualLED.isOn (led : VirtualLED) : Bool :=
  led.currentColor != Color.transparent

/-- VirtualLED::turnOn (src/VirtualLED.cpp lines 96-104): only if off;
sets state true, blinkOn true, color white (via setColor), and stops
the offTimer. The blinkTimer is not touched. -/
def VirtualLED.turnOn (led : VirtualLED) : VirtualLED :=
  if led.state then led
  else
    let led1 := { led with state := true, blinkOn := true }
    let led2 := led1.setColor Color.white
    { led2 with offTimer := led2.offTimer.stop }

/-- VirtualLED::turnOff (src/VirtualLED.cpp lines 110-118): only if on;
sets state false, stops the blinkTimer, resets blinkOn to true, and
sets the color to transparent (via setColor). The offTimer is not
touched. -/
def VirtualLED.turnOff (led : VirtualLED) : VirtualLED :=
  if led.state then
    let led1 := { led with state := false, blinkTimer := led.blinkTimer.stop, blinkOn := true }
    led1.setColor Color.transparent
  else led

/-- VirtualLED::setBlinkSpeed (src/VirtualLED.cpp lines 125-133):
stores the speed, stops the blinkTimer, then restarts it at the new
speed when positive, else forces blinkOn to true. -/
def VirtualLED.setBlinkSpeed (led : VirtualLED) (speed : Int) : VirtualLED :=
  let led1 := { led with blinkSpeed := speed, blinkTimer := led.blinkTimer.stop }
  if 0 < speed then { led1 with blinkTimer := led1.blinkTimer.start speed }
  else { led1 with blinkOn := true }

/-- VirtualLED::getBlinkSpeed (src/VirtualLED.cpp lines 140-142). -/
def VirtualLED.getBlinkSpeed (led : VirtualLED) : Int := led.blinkSpeed

/-- VirtualLED::setDuration (src/VirtualLED.cpp lines 149-153): when
seconds is positive, starts the offTimer with interval seconds * 1000;
otherwise does nothing at all. -/
def VirtualLED.setDuration (led : VirtualLED) (seconds : Int) : VirtualLED :=
  if 0 < seconds then { led with offTimer := led.offTimer.start (seconds * 1000) }
  else led

/-- VirtualLED::stopOffTimer (src/VirtualLED.cpp lines 159-161). -/
def VirtualLED.stopOffTimer (led : VirtualLED) : VirtualLED :=
  { led with offTimer := led.offTimer.stop }

/-- Expiry of the blinkTimer (the lambda connected at
src/VirtualLED.cpp lines 42-45): toggles blinkOn. The timer repeats,
so it stays active. When the timer is not running, nothing fires. -/
def VirtualLED.fireBlinkTimer (led : VirtualLED) : VirtualLED :=
  if led.blinkTimer.active then { led with blinkOn := !led.blinkOn } else led

/-- Expiry of the offTimer (the connect at src/VirtualLED.cpp line 48):
calls turnOff. The QTimer is never made single-shot, so it remains
active after firing (turnOff does not stop it). When the timer is not
running, nothing fires. -/
def VirtualLED.fireOffTimer (led : VirtualLED) : VirtualLED :=
  if led.offTimer.active then led.turnOff else led

/-- VirtualLED::mousePressEvent left-button branch (src/VirtualLED.cpp
lines 168-173): toggles via turnOff or turnOn depending on state. -/
def VirtualLED.clickToggle (led : VirtualLED) : VirtualLED :=
  if led.state then led.turnOff else led.turnOn

/-- Outcome a UserInterface operation reports to the user: the warning
dialogs of src/UserInterface.cpp, success, or a cancelled picker. -/
inductive UIReport where
  | noLEDs
  | allAlreadyOn
  | allAlreadyOff
  | noneOn
  | cancelled
  | success
deriving DecidableEq, Repr

/-- The UserInterface collection state: the led list and the nextLedId
counter (src/UserInterface.h lines 125-126). -/
structure UserInterface where
  leds : List VirtualLED
  nextLedId : Int
deriving DecidableEq, Repr

/-- Constructor UserInterface::UserInterface (src/UserInterface.cpp
line 33): empty collection, nextLedId = 1. -/
def UserInterface.init : UserInterface := ⟨[], 1⟩

/-- UserInterface::addNewLED (src/UserInterface.cpp lines 83-97):
appends a fresh LED carrying id nextLedId and increments nextLedId. -/
def UserInterface.addNewLED (ui : UserInterface) : UserInterface :=
  { leds := ui.leds ++ [mkVirtualLED ui.nextLedId], nextLedId := ui.nextLedId + 1 }

/-- UserInterface::turnAllLEDsOn (src/UserInterface.cpp lines 103-127):
warns when the collection is empty; warns when every LED is already on;
otherwise sets every off LED to white and stops the offTimer of every
LED in the collection. -/
def UserInterface.turnAllLEDsOn (ui : UserInterface) : UserInterface × UIReport :=
  if ui.leds.isEmpty then (ui, UIReport.noLEDs)
  else if ui.leds.all (fun led => led.isOn) then (ui, UIReport.allAlreadyOn)
  else
    ({ ui with leds := ui.leds.map (fun led =>
        (if led.isOn then led else led.setColor Color.white).stopOffTimer) },
      UIReport.success)

/-- UserInterface::turnAllLEDsOff (src/UserInterface.cpp lines
133-158): warns when empty; turns off each on LED; reports ineffective
when none was on. -/
def UserInterface.turnAllLEDsOff (ui : UserInterface) : UserInterface × UIReport :=
  if ui.leds.isEmpty then (ui, UIReport.noLEDs)
  else
    ({ ui with leds := ui.leds.map (fun led => if led.isOn then led.turnOff else led) },
      if ui.leds.any (fun led => led.isOn) then UIReport.success else UIReport.allAlreadyOff)

/-- UserInterface::removeAllLEDs (src/UserInterface.cpp lines 164-180):
warns when empty; otherwise clears the collection and resets nextLedId
to 1. -/
def UserInterface.removeAllLEDs (ui : UserInterface) : UserInterface × UIReport :=
  if ui.leds.isEmpty then (ui, UIReport.noLEDs)
  else ({ leds := [], nextLedId := 1 }, UIReport.success)

/-- UserInterface::findLEDById (src/UserInterface.cpp lines 400-403):
linear search for the first LED with the given id. -/
def UserInterface.findLEDById (ui : UserInterface) (id : Int) : Option VirtualLED :=
  ui.leds.find? (fun led => led.ledId == id)

/-- Removal of the first list element carrying the given id: the
QList removeOne call on the pointer returned by findLEDById
(src/UserInterface.cpp line 192). -/
def removeFirstById (id : Int) : List VirtualLED → List VirtualLED
  | [] => []
  | led :: rest => if led.ledId == id then rest else led :: removeFirstById id rest

/-- The renumbering loop of UserInterface::reassignLEDIds
(src/UserInterface.cpp line 208): assigns consecutive ids from i on in
list order. -/
def renumberFrom (i : Int) : List VirtualLED → List VirtualLED
  | [] => []
  | led :: rest => led.setId i :: renumberFrom (i + 1) rest

/-- UserInterface::reassignLEDIds (src/UserInterface.cpp lines
206-210): renumbers the collection 1..n and sets nextLedId to n + 1. -/
def UserInterface.reassignLEDIds (ui : UserInterface) : UserInterface :=
  { leds := renumberFrom 1 ui.leds, nextLedId := (ui.leds.length : Int) + 1 }

/-- UserInterface::removeLED (src/UserInterface.cpp lines 187-200):
looks the id up; when found removes that LED and reassigns ids; when
not found does nothing. -/
def UserInterface.removeLED (ui : UserInterface) (id : Int) : UserInterface :=
  match ui.findLEDById id with
  | none => ui
  | some _ => UserInterface.reassignLEDIds { ui with leds := removeFirstById id ui.leds }

/-- Update of the first LED carrying the given id, leaving the rest
alone: the findLEDById-then-mutate pattern of the per-LED slots. -/
def updateFirstById (id : Int) (f : VirtualLED → VirtualLED) :
    List VirtualLED → List VirtualLED
  | [] => []
  | led :: rest => if led.ledId == id then f led :: rest else led :: updateFirstById id f rest

/-- UserInterface::changeLEDColor (src/UserInterface.cpp lines
218-227): setColor on the LED found by id, if any. -/
def UserInterface.changeLEDColor (ui : UserInterface) (id : Int) (color : Color) :
    UserInterface :=
  { ui with leds := updateFirstById id (fun led => led.setColor color) ui.leds }

/-- UserInterface::changeAllLEDsColor (src/UserInterface.cpp lines
233-257): warns when empty; warns when no LED is on; otherwise opens
the color dialog (pick models its outcome: none is cancelled or
invalid) and applies a valid picked color to every on LED. -/
def UserInterface.changeAllLEDsColor (ui : UserInterface) (pick : Option Color) :
    UserInterface × UIReport :=
  if ui.leds.isEmpty then (ui, UIReport.noLEDs)
  else if !(ui.leds.any (fun led => led.isOn)) then (ui, UIReport.noneOn)
  else
    match pick with
    | none => (ui, UIReport.cancelled)
    | some color =>
        ({ ui with leds := ui.leds.map (fun led =>
            if led.isOn then led.setColor color else led) },
          UIReport.success)

/-- UserInterface::setAllLEDsBlinkSpeed (src/UserInterface.cpp lines
263-288): warns when empty; warns unless some LED is on or has a
positive blink speed; otherwise opens the integer dialog (pick models
its outcome) and applies the chosen speed to every on LED. -/
def UserInterface.setAllLEDsBlinkSpeed (ui : UserInterface) (pick : Option Int) :
    UserInterface × UIReport :=
  if ui.leds.isEmpty then (ui, UIReport.noLEDs)
  else if !(ui.leds.any (fun led => led.isOn || decide (0 < led.blinkSpeed))) then
    (ui, UIReport.noneOn)
  else
    match pick with
    | none => (ui, UIReport.cancelled)
    | some speed =>
        ({ ui with leds := ui.leds.map (fun led =>
            if led.isOn then led.setBlinkSpeed speed else led) },
          UIReport.success)

/-- UserInterface::setDurationForOnLEDs (src/UserInterface.cpp lines
294-318): warns when empty; warns unless some LED is on; otherwise
opens the integer dialog (pick models its outcome) and applies the
chosen duration to every on LED. -/
def UserInterface.setDurationForOnLEDs (ui : UserInterface) (pick : Option Int) :
    UserInterface × UIReport :=
  if ui.leds.isEmpty then (ui, UIReport.noLEDs)
  else if !(ui.leds.any (fun led => led.isOn)) then (ui, UIReport.noneOn)
  else
    match pick with
    | none => (ui, UIReport.cancelled)
    | some duration =>
        ({ ui with leds := ui.leds.map (fun led =>
            if led.isOn then led.setDuration duration else led) },
          UIReport.success)

/-- An event the collection can process: every manager slot plus the
per-LED interactions (left-click toggle, the context-menu actions) and
the two timer expiries, addressed by led id. -/
inductive UIOp where
  | addNew
  | turnAllOn
  | turnAllOff
  | removeAll
  | remove (id : Int)
  | changeColor (id : Int) (color : Color)
  | changeAllColor (pick : Option Color)
  | setAllBlinkSpeed (pick : Option Int)
  | setAllDuration (pick : Option Int)
  | click (id : Int)
  | ledSetBlinkSpeed (id : Int) (speed : Int)
  | ledSetDuration (id : Int) (seconds : Int)
  | ledFireBlink (id : Int)
  | ledFireOff (id : Int)

/-- Effect of one event on the collection state. -/
def UIOp.apply (ui : UserInterface) : UIOp → UserInterface
  | .addNew => ui.addNewLED
  | .turnAllOn => ui.turnAllLEDsOn.1
  | .turnAllOff => ui.turnAllLEDsOff.1
  | .removeAll => ui.removeAllLEDs.1
  | .remove id => ui.removeLED id
  | .changeColor id color => ui.changeLEDColor id color
  | .changeAllColor pick => (ui.changeAllLEDsColor pick).1
  | .setAllBlinkSpeed pick => (ui.setAllLEDsBlinkSpeed pick).1
  | .setAllDuration pick => (ui.setDurationForOnLEDs pick).1
  | .click id => { ui with leds := updateFirstById id VirtualLED.clickToggle ui.leds }
  | .ledSetBlinkSpeed id speed =>
      { ui with leds := updateFirstById id (fun led => led.setBlinkSpeed speed) ui.leds }
  | .ledSetDuration id seconds =>
      { ui with leds := updateFirstById id (fun led => led.setDuration seconds) ui.leds }
  | .ledFireBlink id =>
      { ui with leds := updateFirstById id VirtualLED.fireBlinkTimer ui.leds }
  | .ledFireOff id =>
      { ui with leds := updateFirstById id VirtualLED.fireOffTimer ui.leds }

/-- A whole event sequence, applied in order from a starting state. -/
def applyUIOps (ui : UserInterface) (ops : List UIOp) : UserInterface :=
  ops.foldl UIOp.apply ui

/-- One of the six public VirtualLED operations (the mutators of
src/VirtualLED.h lines 44-104). -/
inductive LEDOp where
  | doSetColor (color : Color)
  | doTurnOn
  | doTurnOff
  | doSetBlinkSpeed (speed : Int)
  | doSetDuration (seconds : Int)
  | doStopOffTimer

/-- Effect of one public VirtualLED operation. -/
def LEDOp.apply (led : VirtualLED) : LEDOp → VirtualLED
  | .doSetColor color => led.setColor color
  | .doTurnOn => led.turnOn
  | .doTurnOff => led.turnOff
  | .doSetBlinkSpeed speed => led.setBlinkSpeed speed
  | .doSetDuration seconds => led.setDuration seconds
  | .doStopOffTimer => led.stopOffTimer

/-- A sequence of public VirtualLED operations, applied in order. -/
def applyLEDOps (led : VirtualLED) (ops : List LEDOp) : VirtualLED :=
  ops.foldl LEDOp.apply led

/-- The id values of a led list, in order. -/
def ledIds (l : List VirtualLED) : List Int := l.map (fun led => led.ledId)

/-- The list k, k+1, ..., k+n-1 of n consecutive integers. -/
def idsFrom (k : Int) : Nat → List Int
  | 0 => []
  | n + 1 => k :: idsFrom (k + 1) n

/-- The collection invariant: ids are 1..n in list order and nextLedId
is n + 1. -/
def idsOk (ui : UserInterface) : Prop :=
  ledIds ui.leds = idsFrom 1 ui.leds.length ∧ ui.nextLedId = (ui.leds.length : Int) + 1

/-- The per-LED invariant: the cached state flag agrees with the on
test derived from the color. -/
def stateOk (led : VirtualLED) : Prop := led.state = led.isOn

/-- Everything of a VirtualLED except its id: the payload preserved by
renumbering. -/
def VirtualLED.core (led : VirtualLED) :
    Color × Bool × Bool × QTimerState × Int × QTimerState :=
  (led.currentColor, led.state, led.blinkOn, led.blinkTimer, led.blinkSpeed, led.offTimer)

@[simp]
theorem ledId_setColor (led : VirtualLED) (c : Color) : (led.setColor c).ledId = led.ledId := rfl

@[simp]
theorem ledId_turnOn (led : VirtualLED) : led.turnOn.ledId = led.ledId := by
  unfold VirtualLED.turnOn
  split <;> rfl

@[simp]
theorem ledId_turnOff (led : VirtualLED) : led.turnOff.ledId = led.ledId := by
  unfold VirtualLED.turnOff
  split <;> rfl

@[simp]
theorem ledId_setBlinkSpeed (led : VirtualLED) (s : Int) :
    (led.setBlinkSpeed s).ledId = led.ledId := by
  unfold VirtualLED.setBlinkSpeed
  split <;> rfl

@[simp]
theorem ledId_setDuration (led : VirtualLED) (s : Int) :
    (led.setDuration s).ledId = led.ledId := by
  unfold VirtualLED.setDuration
  split <;> rfl

@[simp]
theorem ledId_stopOffTimer (led : VirtualLED) : led.stopOffTimer.ledId = led.ledId := rfl

@[simp]
theorem ledId_fireBlinkTimer (led : VirtualLED) : led.fireBlinkTimer.ledId = led.ledId := by
  unfold VirtualLED.fireBlinkTimer
  split <;> rfl

@[simp]
theorem ledId_fireOffTimer (led : VirtualLED) : led.fireOffTimer.ledId = led.ledId := by
  unfold VirtualLED.fireOffTimer
  split
  · exact ledId_turnOff led
  · rfl

@[simp]
theorem ledId_clickToggle (led : VirtualLED) : led.clickToggle.ledId = led.ledId := by
  unfold VirtualLED.clickToggle
  split
  · exact ledId_turnOff led
  · exact ledId_turnOn led

@[simp]
theorem ledIds_nil : ledIds [] = [] := rfl

@[simp]
theorem ledIds_cons (led : VirtualLED) (l : List VirtualLED) :
    ledIds (led :: l) = led.ledId :: ledIds l := rfl

@[simp]
theorem ledIds_append (l₁ l₂ : List VirtualLED) :
    ledIds (l₁ ++ l₂) = ledIds l₁ ++ ledIds l₂ := by
  simp [ledIds]

theorem ledIds_map_of_preserve (f : VirtualLED → VirtualLED) (l : List VirtualLED)
    (hf : ∀ led, (f led).ledId = led.ledId) : ledIds (l.map f) = ledIds l := by
  induction l with
  | nil => rfl
  | cons led rest ih => simp [ledIds, hf led] at ih ⊢; exact ih

theorem ledIds_updateFirstById (id : Int) (f : VirtualLED → VirtualLED) (l : List VirtualLED)
    (hf : ∀ led, (f led).ledId = led.ledId) : ledIds (updateFirstById id f l) = ledIds l := by
  induction l with
  | nil => rfl
  | cons led rest ih =>
      unfold updateFirstById
      split
      · simp [hf led]
      · simp [ih]

@[simp]
theorem length_renumberFrom (k : Int) (l : List VirtualLED) :
    (renumberFrom k l).length = l.length := by
  induction l generalizing k with
  | nil => rfl
  | cons led rest ih => simp [renumberFrom, ih]

theorem ledIds_renumberFrom (k : Int) (l : List VirtualLED) :
    ledIds (renumberFrom k l) = idsFrom k l.length := by
  induction l generalizing k with
  | nil => rfl
  | cons led rest ih => simp [renumberFrom, idsFrom, VirtualLED.setId, ih]

theorem idsFrom_snoc (k : Int) (n : Nat) :
    idsFrom k (n + 1) = idsFrom k n ++ [k + (n : Int)] := by
  induction n generalizing k with
  | zero => simp [idsFrom]
  | succ n ih =>
      rw [idsFrom, ih (k + 1), idsFrom]
      simp only [List.cons_append]
      have harith : k + 1 + (n : Int) = k + ((n + 1 : Nat) : Int) := by push_cast; ring
      rw [harith]

theorem mem_idsFrom (k x : Int) (n : Nat) : x ∈ idsFrom k n ↔ k ≤ x ∧ x < k + n := by
  induction n generalizing k with
  | zero => simp [idsFrom]
  | succ n ih =>
      simp only [idsFrom, List.mem_cons, ih (k + 1)]
      push_cast
      omega

theorem nodup_idsFrom (k : Int) (n : Nat) : (idsFrom k n).Nodup := by
  induction n generalizing k with
  | zero => simp [idsFrom]
  | succ n ih =>
      rw [idsFrom, List.nodup_cons]
      refine ⟨?_, ih (k + 1)⟩
      rw [mem_idsFrom]
      omega

theorem idsOk_init : idsOk UserInterface.init := by
  constructor <;> simp [UserInterface.init, ledIds, idsFrom]

theorem idsOk_reassign (ui : UserInterface) : idsOk ui.reassignLEDIds := by
  constructor
  · simp [UserInterface.reassignLEDIds, ledIds_renumberFrom]
  · simp [UserInterface.reassignLEDIds]

theorem idsOk_addNew (ui : UserInterface) (h : idsOk ui) : idsOk ui.addNewLED := by
  obtain ⟨h1, h2⟩ := h
  constructor
  · show ledIds (ui.leds ++ [mkVirtualLED ui.nextLedId])
        = idsFrom 1 (ui.leds ++ [mkVirtualLED ui.nextLedId]).length
    rw [ledIds_append, h1, List.length_append, List.length_singleton, idsFrom_snoc]
    congr 1
    show [ui.nextLedId] = [1 + (ui.leds.length : Int)]
    rw [h2]
    congr 1
    ring
  · show ui.nextLedId + 1 = ((ui.leds ++ [mkVirtualLED ui.nextLedId]).length : Int) + 1
    rw [h2, List.length_append, List.length_singleton]
    push_cast
    ring

theorem idsOk_mapLeds (ui : UserInterface) (f : VirtualLED → VirtualLED)
    (hf : ∀ led, (f led).ledId = led.ledId) (h : idsOk ui) :
    idsOk { ui with leds := ui.leds.map f } := by
  obtain ⟨h1, h2⟩ := h
  constructor
  · simpa [ledIds_map_of_preserve f _ hf] using h1
  · simpa using h2

theorem idsOk_updateLeds (ui : UserInterface) (id : Int) (f : VirtualLED → VirtualLED)
    (hf : ∀ led, (f led).ledId = led.ledId) (h : idsOk ui) :
    idsOk { ui with leds := updateFirstById id f ui.leds } := by
  obtain ⟨h1, h2⟩ := h
  have hlen : (updateFirstById id f ui.leds).length = ui.leds.length := by
    have := congrArg List.length (ledIds_updateFirstById id f ui.leds hf)
    simpa [ledIds] using this
  constructor
  · rw [ledIds_updateFirstById id f ui.leds hf, hlen]
    exact h1
  · rw [hlen]
    exact h2

theorem idsOk_turnAllOn (ui : UserInterface) (h : idsOk ui) : idsOk ui.turnAllLEDsOn.1 := by
  unfold UserInterface.turnAllLEDsOn
  split
  · exact h
  · split
    · exact h
    · refine idsOk_mapLeds ui _ (fun led => ?_) h
      simp only [ledId_stopOffTimer]
      split <;> rfl

theorem idsOk_turnAllOff (ui : UserInterface) (h : idsOk ui) : idsOk ui.turnAllLEDsOff.1 := by
  unfold UserInterface.turnAllLEDsOff
  split
  · exact h
  · refine idsOk_mapLeds ui _ (fun led => ?_) h
    split
    · exact ledId_turnOff led
    · rfl

theorem idsOk_removeAll (ui : UserInterface) (h : idsOk ui) : idsOk ui.removeAllLEDs.1 := by
  unfold UserInterface.removeAllLEDs
  split
  · exact h
  · constructor <;> simp [ledIds, idsFrom]

theorem idsOk_remove (ui : UserInterface) (id : Int) (h : idsOk ui) :
    idsOk (ui.removeLED id) := by
  unfold UserInterface.removeLED
  split
  · exact h
  · exact idsOk_reassign _

theorem idsOk_changeAllColor (ui : UserInterface) (pick : Option Color) (h : idsOk ui) :
    idsOk (ui.changeAllLEDsColor pick).1 := by
  unfold UserInterface.changeAllLEDsColor
  split
  · exact h
  · split
    · exact h
    · cases pick with
      | none => exact h
      | some color =>
          refine idsOk_mapLeds ui _ (fun led => ?_) h
          split <;> rfl

theorem idsOk_setAllBlinkSpeed (ui : UserInterface) (pick : Option Int) (h : idsOk ui) :
    idsOk (ui.setAllLEDsBlinkSpeed pick).1 := by
  unfold UserInterface.setAllLEDsBlinkSpeed
  split
  · exact h
  · split
    · exact h
    · cases pick with
      | none => exact h
      | some speed =>
          refine idsOk_mapLeds ui _ (fun led => ?_) h
          split
          · exact ledId_setBlinkSpeed led speed
          · rfl

theorem idsOk_setAllDuration (ui : UserInterface) (pick : Option Int) (h : idsOk ui) :
    idsOk (ui.setDurationForOnLEDs pick).1 := by
  unfold UserInterface.setDurationForOnLEDs
  split
  · exact h
  · split
    · exact h
    · cases pick with
      | none => exact h
      | some duration =>
          refine idsOk_mapLeds ui _ (fun led => ?_) h
          split
          · exact ledId_setDuration led duration
          · rfl

theorem idsOk_apply (ui : UserInterface) (op : UIOp) (h : idsOk ui) :
    idsOk (UIOp.apply ui op) := by
  cases op with
  | addNew => exact idsOk_addNew ui h
  | turnAllOn => exact idsOk_turnAllOn ui h
  | turnAllOff => exact idsOk_turnAllOff ui h
  | removeAll => exact idsOk_removeAll ui h
  | remove id => exact idsOk_remove ui id h
  | changeColor id color => exact idsOk_updateLeds ui id _ (fun led => by simp) h
  | changeAllColor pick => exact idsOk_changeAllColor ui pick h
  | setAllBlinkSpeed pick => exact idsOk_setAllBlinkSpeed ui pick h
  | setAllDuration pick => exact idsOk_setAllDuration ui pick h
  | click id => exact idsOk_updateLeds ui id _ (fun led => by simp) h
  | ledSetBlinkSpeed id speed => exact idsOk_updateLeds ui id _ (fun led => by simp) h
  | ledSetDuration id seconds => exact idsOk_updateLeds ui id _ (fun led => by simp) h
  | ledFireBlink id => exact idsOk_updateLeds ui id _ (fun led => by simp) h
  | ledFireOff id => exact idsOk_updateLeds ui id _ (fun led => by simp) h

theorem idsOk_foldl (ops : List UIOp) (ui : UserInterface) (h : idsOk ui) :
    idsOk (ops.foldl UIOp.apply ui) := by
  induction ops generalizing ui with
  | nil => exact h
  | cons op rest ih => exact ih (UIOp.apply ui op) (idsOk_apply ui op h)

theorem idsOk_reachable (ops : List UIOp) : idsOk (applyUIOps UserInterface.init ops) :=
  idsOk_foldl ops UserInterface.init idsOk_init

theorem stateOk_setColor (led : VirtualLED) (c : Color) : stateOk (led.setColor c) := rfl

theorem stateOk_turnOn (led : VirtualLED) (h : stateOk led) : stateOk led.turnOn := by
  unfold VirtualLED.turnOn
  split
  · exact h
  · rfl

theorem stateOk_turnOff (led : VirtualLED) (h : stateOk led) : stateOk led.turnOff := by
  unfold VirtualLED.turnOff
  split
  · rfl
  · exact h

theorem stateOk_setBlinkSpeed (led : VirtualLED) (s : Int) (h : stateOk led) :
    stateOk (led.setBlinkSpeed s) := by
  unfold VirtualLED.setBlinkSpeed
  split
  · exact h
  · exact h

theorem stateOk_setDuration (led : VirtualLED) (s : Int) (h : stateOk led) :
    stateOk (led.setDuration s) := by
  unfold VirtualLED.setDuration
  split
  · exact h
  · exact h

theorem stateOk_apply (led : VirtualLED) (op : LEDOp) (h : stateOk led) :
    stateOk (LEDOp.apply led op) := by
  cases op with
  | doSetColor color => exact stateOk_setColor led color
  | doTurnOn => exact stateOk_turnOn led h
  | doTurnOff => exact stateOk_turnOff led h
  | doSetBlinkSpeed speed => exact stateOk_setBlinkSpeed led speed h
  | doSetDuration seconds => exact stateOk_setDuration led seconds h
  | doStopOffTimer => exact h

theorem stateOk_foldl (ops : List LEDOp) (led : VirtualLED) (h : stateOk led) :
    stateOk (ops.foldl LEDOp.apply led) := by
  induction ops generalizing led with
  | nil => exact h
  | cons op rest ih => exact ih (LEDOp.apply led op) (stateOk_apply led op h)

theorem stateOk_mk (id : Int) : stateOk (mkVirtualLED id) := rfl

theorem length_removeFirstById (id : Int) (l : List VirtualLED)
    (hmem : (l.any fun led => led.ledId == id) = true) :
    (removeFirstById id l).length = l.length - 1 := by
  induction l with
  | nil => simp at hmem
  | cons led rest ih =>
      unfold removeFirstById
      split
      · simp
      · rename_i hne
        have hrest : (rest.any fun led => led.ledId == id) = true := by
          simp only [List.any_cons, Bool.or_eq_true] at hmem
          rcases hmem with hmem | hmem
          · exact absurd hmem hne
          · exact hmem
        have hlen : 1 ≤ rest.length := by
          cases rest with
          | nil => simp at hrest
          | cons a l => simp
        simp only [List.length_cons, ih hrest]
        omega

theorem filter_ne_id_of_not_mem (id : Int) (l : List VirtualLED)
    (hno : ∀ led ∈ l, led.ledId ≠ id) :
    (l.filter fun led => !(led.ledId == id)) = l := by
  induction l with
  | nil => rfl
  | cons led rest ih =>
      rw [List.filter_cons]
      have hhead : (!(led.ledId == id)) = true := by
        simp only [Bool.not_eq_eq_eq_not, Bool.not_true, beq_eq_false_iff_ne]
        exact hno led (List.mem_cons_self led rest)
      rw [if_pos hhead, ih (fun x hx => hno x (List.mem_cons_of_mem led hx))]

theorem removeFirstById_eq_filter (id : Int) (l : List VirtualLED)
    (hN : (ledIds l).Nodup) (hmem : (l.any fun led => led.ledId == id) = true) :
    removeFirstById id l = l.filter fun led => !(led.ledId == id) := by
  induction l with
  | nil => simp at hmem
  | cons led rest ih =>
      unfold removeFirstById
      rw [List.filter_cons]
      split
      · rename_i heq
        have hid : led.ledId = id := by simpa using heq
        rw [if_neg (by simp [heq])]
        have hno : ∀ x ∈ rest, x.ledId ≠ id := by
          intro x hx
          have hnotin : led.ledId ∉ ledIds rest := (List.nodup_cons.mp hN).1
          intro hxid
          exact hnotin (by
            rw [hid, ← hxid]
            exact List.mem_map_of_mem (fun y => y.ledId) hx)
        exact (filter_ne_id_of_not_mem id rest hno).symm
      · rename_i hne
        have hhead : (!(led.ledId == id)) = true := by
          simp only [Bool.not_eq_eq_eq_not, Bool.not_true]
          exact Bool.not_eq_true _ ▸ (by simpa using hne)
        rw [if_pos hhead]
        have hrest : (rest.any fun led => led.ledId == id) = true := by
          simp only [List.any_cons, Bool.or_eq_true] at hmem
          rcases hmem with hmem | hmem
          · exact absurd hmem hne
          · exact hmem
        rw [ih (List.nodup_cons.mp hN).2 hrest]

theorem core_renumberFrom (k : Int) (l : List VirtualLED) :
    (renumberFrom k l).map VirtualLED.core = l.map VirtualLED.core := by
  induction l generalizing k with
  | nil => rfl
  | cons led rest ih => simp [renumberFrom, ih, VirtualLED.setId, VirtualLED.core]

theorem findLEDById_none_iff (ui : UserInterface) (id : Int) :
    ui.findLEDById id = none ↔ (ui.leds.any fun led => led.ledId == id) = false := by
  unfold UserInterface.findLEDById
  rw [List.find?_eq_none, List.any_eq_false]

theorem offTimer_turnOff (led : VirtualLED) : led.turnOff.offTimer = led.offTimer := by
  unfold VirtualLED.turnOff
  split <;> rfl

theorem getBlinkSpeed_turnOff (led : VirtualLED) :
    led.turnOff.getBlinkSpeed = led.getBlinkSpeed := by
  unfold VirtualLED.turnOff VirtualLED.getBlinkSpeed
  split <;> rfl

theorem blinkSpeed_turnOff (led : VirtualLED) : led.turnOff.blinkSpeed = led.blinkSpeed := by
  unfold VirtualLED.turnOff
  split <;> rfl

theorem blinkSpeed_turnOn (led : VirtualLED) : led.turnOn.blinkSpeed = led.blinkSpeed := by
  unfold VirtualLED.turnOn
  split <;> rfl

theorem blinkTimer_turnOn (led : VirtualLED) : led.turnOn.blinkTimer = led.blinkTimer := by
  unfold VirtualLED.turnOn
  split <;> rfl

theorem state_turnOff_false (led : VirtualLED) (h : led.state = true) :
    led.turnOff.state = false := by
  unfold VirtualLED.turnOff
  rw [if_pos h]
  rfl

theorem blinkTimer_turnOff_stopped (led : VirtualLED) (h : led.state = true) :
    led.turnOff.blinkTimer = led.blinkTimer.stop := by
  unfold VirtualLED.turnOff
  rw [if_pos h]
  rfl

theorem isOn_turnOn_true (led : VirtualLED) (h : led.state = false) :
    led.turnOn.isOn = true := by
  unfold VirtualLED.turnOn
  rw [h]
  rfl

/-- Claim C2: in every reachable collection state (any finite sequence
of manager operations and per-LED events from the initial state), the
id values of the LED Units are exactly the set 1..n with no gaps and
no duplicates, where n is the collection size, and nextLedId equals
n + 1. -/
theorem collection_id_invariant (ops : List UIOp) :
    (∀ k : Int, k ∈ ledIds (applyUIOps UserInterface.init ops).leds ↔
        1 ≤ k ∧ k ≤ ((applyUIOps UserInterface.init ops).leds.length : Int))
    ∧ (ledIds (applyUIOps UserInterface.init ops).leds).Nodup
    ∧ (applyUIOps UserInterface.init ops).nextLedId
        = ((applyUIOps UserInterface.init ops).leds.length : Int) + 1 := by
  obtain ⟨h1, h2⟩ := idsOk_reachable ops
  refine ⟨?_, ?_, h2⟩
  · intro k
    rw [h1, mem_idsFrom]
    omega
  · rw [h1]
    exact nodup_idsFrom 1 _

/-- Claim C10: after construction and after any sequence of the six
public VirtualLED operations, the private state flag equals the test
that currentColor differs from transparent, so isOn (which tests the
color) agrees with the flag that turnOn, turnOff and the click-toggle
handler branch on. -/
theorem state_flag_matches_color (id : Int) (ops : List LEDOp) :
    (applyLEDOps (mkVirtualLED id) ops).state
        = ((applyLEDOps (mkVirtualLED id) ops).currentColor != Color.transparent)
    ∧ (applyLEDOps (mkVirtualLED id) ops).state
        = (applyLEDOps (mkVirtualLED id) ops).isOn := by
  have h := stateOk_foldl ops (mkVirtualLED id) (stateOk_mk id)
  exact ⟨h, h⟩

/-- Claim C1 (amended): on an LED whose state flag is on, turnOff
leaves the LED off with the blink timer stopped and the blink phase
reset to true, but it leaves the auto-off timer exactly as it was
(not cancelled); setColor with the transparent color leaves the LED
off but touches neither the blink timer, the blink phase, nor the
auto-off timer. -/
theorem turnOff_and_transparent_effects (led : VirtualLED) (h : led.state = true) :
    (led.turnOff.isOn = false
      ∧ led.turnOff.state = false
      ∧ led.turnOff.blinkTimer.active = false
      ∧ led.turnOff.blinkOn = true
      ∧ led.turnOff.offTimer = led.offTimer)
    ∧ ((led.setColor Color.transparent).isOn = false
      ∧ (led.setColor Color.transparent).state = false
      ∧ (led.setColor Color.transparent).blinkTimer = led.blinkTimer
      ∧ (led.setColor Color.transparent).blinkOn = led.blinkOn
      ∧ (led.setColor Color.transparent).offTimer = led.offTimer) := by
  unfold VirtualLED.turnOff
  rw [if_pos h]
  refine ⟨⟨?_, ?_, rfl, rfl, rfl⟩, ⟨?_, ?_, rfl, rfl, rfl⟩⟩ <;>
    simp [VirtualLED.setColor, VirtualLED.isOn]

/-- Claim C1 counterexample: a concrete on LED, blinking at 300 ms
with its phase currently dark and an auto-off timer pending. turnOff
leaves the auto-off timer running, and setColor(transparent) leaves
the blink timer running, the blink phase dark and the auto-off timer
running — against the claim that either call stops blink cycling,
resets the phase to visible and cancels the auto-off timer. -/
theorem turnOff_and_transparent_cex :
    ((((mkVirtualLED 1).turnOn).setBlinkSpeed 300).setDuration 5).fireBlinkTimer.isOn = true
    ∧ (((((mkVirtualLED 1).turnOn).setBlinkSpeed 300).setDuration
          5).fireBlinkTimer.turnOff).offTimer.active = true
    ∧ ((((((mkVirtualLED 1).turnOn).setBlinkSpeed 300).setDuration
          5).fireBlinkTimer).setColor Color.transparent).blinkTimer.active = true
    ∧ ((((((mkVirtualLED 1).turnOn).setBlinkSpeed 300).setDuration
          5).fireBlinkTimer).setColor Color.transparent).blinkOn = false
    ∧ ((((((mkVirtualLED 1).turnOn).setBlinkSpeed 300).setDuration
          5).fireBlinkTimer).setColor Color.transparent).offTimer.active = true := by
  decide

/-- Witness for the amended C1 theorem at a concrete on LED carrying a
pending auto-off timer. -/
theorem turnOff_and_transparent_witness :
    (((((mkVirtualLED 1).turnOn).setDuration 5).turnOff.isOn = false
      ∧ (((mkVirtualLED 1).turnOn).setDuration 5).turnOff.state = false
      ∧ (((mkVirtualLED 1).turnOn).setDuration 5).turnOff.blinkTimer.active = false
      ∧ (((mkVirtualLED 1).turnOn).setDuration 5).turnOff.blinkOn = true
      ∧ (((mkVirtualLED 1).turnOn).setDuration 5).turnOff.offTimer
          = (((mkVirtualLED 1).turnOn).setDuration 5).offTimer)
    ∧ (((((mkVirtualLED 1).turnOn).setDuration 5).setColor Color.transparent).isOn = false
      ∧ ((((mkVirtualLED 1).turnOn).setDuration 5).setColor Color.transparent).state = false
      ∧ ((((mkVirtualLED 1).turnOn).setDuration 5).setColor Color.transparent).blinkTimer
          = (((mkVirtualLED 1).turnOn).setDuration 5).blinkTimer
      ∧ ((((mkVirtualLED 1).turnOn).setDuration 5).setColor Color.transparent).blinkOn
          = (((mkVirtualLED 1).turnOn).setDuration 5).blinkOn
      ∧ ((((mkVirtualLED 1).turnOn).setDuration 5).setColor Color.transparent).offTimer
          = (((mkVirtualLED 1).turnOn).setDuration 5).offTimer)) :=
  turnOff_and_transparent_effects (((mkVirtualLED 1).turnOn).setDuration 5) (by decide)

/-- Claim C5 (amended): on an LED whose state flag is off, turnOn
turns the LED on with the default white color and stops any pending
auto-off timer; setColor with a non-transparent color turns the LED on
with that color but leaves the auto-off timer exactly as it was (it
does not stop a pending one). -/
theorem off_to_on_effects (led : VirtualLED) (c : Color) (hoff : led.state = false)
    (hc : c ≠ Color.transparent) :
    (led.turnOn.isOn = true
      ∧ led.turnOn.currentColor = Color.white
      ∧ led.turnOn.offTimer.active = false)
    ∧ ((led.setColor c).isOn = true
      ∧ (led.setColor c).currentColor = c
      ∧ (led.setColor c).offTimer = led.offTimer) := by
  unfold VirtualLED.turnOn
  rw [hoff]
  refine ⟨⟨?_, rfl, rfl⟩, ⟨?_, rfl, rfl⟩⟩
  · simp [VirtualLED.setColor, VirtualLED.isOn]
    decide
  · simp [VirtualLED.setColor, VirtualLED.isOn, hc]

/-- Claim C5 counterexample: a concrete off LED with a pending
auto-off timer (turned on, given a 3 second duration, then turned off,
which leaves the timer running). setColor(red) turns it on but leaves
the auto-off timer running — against the claim that both Off-to-On
triggers stop any pending auto-off duration timer. -/
theorem off_to_on_cex :
    ((((mkVirtualLED 1).turnOn).setDuration 3).turnOff).isOn = false
    ∧ ((((mkVirtualLED 1).turnOn).setDuration 3).turnOff).offTimer.active = true
    ∧ (((((mkVirtualLED 1).turnOn).setDuration 3).turnOff).setColor Color.red).isOn = true
    ∧ (((((mkVirtualLED 1).turnOn).setDuration 3).turnOff).setColor
        Color.red).offTimer.active = true := by
  decide

/-- Witness for the amended C5 theorem at a freshly constructed (off)
LED and the color red. -/
theorem off_to_on_witness :
    ((mkVirtualLED 1).turnOn.isOn = true
      ∧ (mkVirtualLED 1).turnOn.currentColor = Color.white
      ∧ (mkVirtualLED 1).turnOn.offTimer.active = false)
    ∧ (((mkVirtualLED 1).setColor Color.red).isOn = true
      ∧ ((mkVirtualLED 1).setColor Color.red).currentColor = Color.red
      ∧ ((mkVirtualLED 1).setColor Color.red).offTimer = (mkVirtualLED 1).offTimer) :=
  off_to_on_effects (mkVirtualLED 1) Color.red (by decide) (by decide)

/-- Claim C7: setBlinkSpeed with a positive speed stores the value and
starts the blink timer at that interval, whose expiry toggles the
blink phase and leaves the timer running (a periodic toggle); and
setBlinkSpeed 0 stops any running toggle and forces the phase back to
true, regardless of the previously set speed. -/
theorem setBlinkSpeed_spec (led : VirtualLED) (speed : Int) (hpos : 0 < speed) :
    ((led.setBlinkSpeed speed).blinkSpeed = speed
      ∧ (led.setBlinkSpeed speed).blinkTimer = QTimerState.mk true speed
      ∧ (led.setBlinkSpeed speed).fireBlinkTimer.blinkOn = !(led.setBlinkSpeed speed).blinkOn
      ∧ (led.setBlinkSpeed speed).fireBlinkTimer.blinkTimer = QTimerState.mk true speed)
    ∧ ((led.setBlinkSpeed 0).blinkSpeed = 0
      ∧ (led.setBlinkSpeed 0).blinkTimer.active = false
      ∧ (led.setBlinkSpeed 0).blinkOn = true) := by
  constructor
  · unfold VirtualLED.setBlinkSpeed
    rw [if_pos hpos]
    exact ⟨rfl, rfl, rfl, rfl⟩
  · unfold VirtualLED.setBlinkSpeed
    rw [if_neg (by omega)]
    exact ⟨rfl, rfl, rfl⟩

/-- Witness for the C7 theorem at a concrete on LED and the speed
500 ms. -/
theorem setBlinkSpeed_witness :
    ((((mkVirtualLED 1).turnOn).setBlinkSpeed 500).blinkSpeed = 500
      ∧ (((mkVirtualLED 1).turnOn).setBlinkSpeed 500).blinkTimer = QTimerState.mk true 500
      ∧ (((mkVirtualLED 1).turnOn).setBlinkSpeed 500).fireBlinkTimer.blinkOn
          = !(((mkVirtualLED 1).turnOn).setBlinkSpeed 500).blinkOn
      ∧ (((mkVirtualLED 1).turnOn).setBlinkSpeed 500).fireBlinkTimer.blinkTimer
          = QTimerState.mk true 500)
    ∧ ((((mkVirtualLED 1).turnOn).setBlinkSpeed 0).blinkSpeed = 0
      ∧ (((mkVirtualLED 1).turnOn).setBlinkSpeed 0).blinkTimer.active = false
      ∧ (((mkVirtualLED 1).turnOn).setBlinkSpeed 0).blinkOn = true) :=
  setBlinkSpeed_spec ((mkVirtualLED 1).turnOn) 500 (by decide)

/-- Claim C8 (amended): setDuration with positive seconds starts the
auto-off timer at seconds times 1000 milliseconds, replacing any
previously scheduled one and changing nothing else; its expiry calls
turnOff; the timer is repeating rather than one-shot, so it remains
scheduled after expiry until explicitly stopped; setDuration with zero
or negative seconds changes nothing at all, in particular it does not
cancel a pending timer. -/
theorem setDuration_spec (led : VirtualLED) (s : Int) :
    (0 < s →
      (led.setDuration s).offTimer = QTimerState.mk true (s * 1000)
      ∧ (led.setDuration s).currentColor = led.currentColor
      ∧ (led.setDuration s).state = led.state
      ∧ (led.setDuration s).blinkOn = led.blinkOn
      ∧ (led.setDuration s).blinkTimer = led.blinkTimer
      ∧ (led.setDuration s).blinkSpeed = led.blinkSpeed
      ∧ (led.setDuration s).fireOffTimer = (led.setDuration s).turnOff
      ∧ (led.setDuration s).fireOffTimer.offTimer.active = true)
    ∧ (s ≤ 0 → led.setDuration s = led) := by
  constructor
  · intro hpos
    have hdef : led.setDuration s
        = { led with offTimer := led.offTimer.start (s * 1000) } := by
      unfold VirtualLED.setDuration
      rw [if_pos hpos]
    rw [hdef]
    have hfire : VirtualLED.fireOffTimer { led with offTimer := led.offTimer.start (s * 1000) }
        = VirtualLED.turnOff { led with offTimer := led.offTimer.start (s * 1000) } := by
      unfold VirtualLED.fireOffTimer
      simp [QTimerState.start]
    refine ⟨rfl, rfl, rfl, rfl, rfl, rfl, hfire, ?_⟩
    rw [hfire, offTimer_turnOff]
    rfl
  · intro hneg
    unfold VirtualLED.setDuration
    rw [if_neg (by omega)]

/-- Claim C8 counterexample: an on LED given a 2 second duration. The
timer fires and turns the LED off, but remains scheduled afterwards
(active is still true), and after the LED is turned back on through
setColor the still-running timer turns it off again — so the
scheduled timer is repeating, not one-shot. -/
theorem setDuration_one_shot_cex :
    (((mkVirtualLED 1).turnOn).setDuration 2).offTimer.active = true
    ∧ ((((mkVirtualLED 1).turnOn).setDuration 2).fireOffTimer).isOn = false
    ∧ ((((mkVirtualLED 1).turnOn).setDuration 2).fireOffTimer).offTimer.active = true
    ∧ (((((mkVirtualLED 1).turnOn).setDuration 2).fireOffTimer).setColor Color.red).isOn = true
    ∧ ((((((mkVirtualLED 1).turnOn).setDuration
        2).fireOffTimer).setColor Color.red).fireOffTimer).isOn = false := by
  decide

/-- Witness for the amended C8 theorem at a concrete on LED, with the
durations 2 and 0. -/
theorem setDuration_witness :
    (((mkVirtualLED 1).turnOn).setDuration 2).offTimer = QTimerState.mk true (2 * 1000)
    ∧ ((mkVirtualLED 1).turnOn).setDuration 0 = (mkVirtualLED 1).turnOn :=
  ⟨((setDuration_spec ((mkVirtualLED 1).turnOn) 2).1 (by decide)).1,
    (setDuration_spec ((mkVirtualLED 1).turnOn) 0).2 (by decide)⟩

/-- Claim C9: on an on LED with a positive blinkSpeed, turnOff leaves
blinkSpeed unchanged (getBlinkSpeed still returns the old positive
value), and a subsequent turnOn does not reapply blinking: the LED
comes back on steady with the blink timer not running, until
setBlinkSpeed is called again (which restarts the toggle). -/
theorem blinkSpeed_remembered_spec (led : VirtualLED) (hon : led.state = true)
    (hpos : 0 < led.blinkSpeed) :
    led.turnOff.getBlinkSpeed = led.getBlinkSpeed
    ∧ 0 < led.turnOff.getBlinkSpeed
    ∧ led.turnOff.turnOn.isOn = true
    ∧ led.turnOff.turnOn.blinkTimer.active = false
    ∧ led.turnOff.turnOn.blinkSpeed = led.blinkSpeed
    ∧ (∀ s : Int, 0 < s → (led.turnOff.turnOn.setBlinkSpeed s).blinkTimer.active = true) := by
  refine ⟨getBlinkSpeed_turnOff led, ?_, ?_, ?_, ?_, ?_⟩
  · rw [getBlinkSpeed_turnOff]
    exact hpos
  · exact isOn_turnOn_true led.turnOff (state_turnOff_false led hon)
  · rw [blinkTimer_turnOn, blinkTimer_turnOff_stopped led hon]
    rfl
  · rw [blinkSpeed_turnOn, blinkSpeed_turnOff]
  · intro s hs
    unfold VirtualLED.setBlinkSpeed
    rw [if_pos hs]
    rfl

/-- Witness for the C9 theorem at a concrete LED that is on and
blinking at 250 ms. -/
theorem blinkSpeed_remembered_witness :
    (((mkVirtualLED 1).turnOn).setBlinkSpeed 250).turnOff.getBlinkSpeed
        = (((mkVirtualLED 1).turnOn).setBlinkSpeed 250).getBlinkSpeed
    ∧ 0 < (((mkVirtualLED 1).turnOn).setBlinkSpeed 250).turnOff.getBlinkSpeed
    ∧ (((mkVirtualLED 1).turnOn).setBlinkSpeed 250).turnOff.turnOn.isOn = true
    ∧ (((mkVirtualLED 1).turnOn).setBlinkSpeed 250).turnOff.turnOn.blinkTimer.active = false
    ∧ (((mkVirtualLED 1).turnOn).setBlinkSpeed 250).turnOff.turnOn.blinkSpeed
        = (((mkVirtualLED 1).turnOn).setBlinkSpeed 250).blinkSpeed
    ∧ (∀ s : Int, 0 < s →
        ((((mkVirtualLED 1).turnOn).setBlinkSpeed
            250).turnOff.turnOn.setBlinkSpeed s).blinkTimer.active = true) :=
  blinkSpeed_remembered_spec (((mkVirtualLED 1).turnOn).setBlinkSpeed 250)
    (by decide) (by decide)

/-- Claim C3: turnAllLEDsOn on an empty collection reports noLEDs and
leaves the state unchanged; on a non-empty collection with every LED
already on it reports allAlreadyOn; otherwise (some LED off) it
succeeds, every LED ends on (off ones set to the default white, on
ones keeping their color) and the auto-off timer of every LED in the
collection is stopped, with the membership and nextLedId untouched. -/
theorem turnAllOn_spec (ui : UserInterface) :
    (ui.leds.isEmpty = true → ui.turnAllLEDsOn = (ui, UIReport.noLEDs))
    ∧ (ui.leds.isEmpty = false → (ui.leds.all fun led => led.isOn) = true →
        ui.turnAllLEDsOn = (ui, UIReport.allAlreadyOn))
    ∧ ((ui.leds.all fun led => led.isOn) = false →
        ui.turnAllLEDsOn.2 = UIReport.success
        ∧ (∀ led ∈ ui.turnAllLEDsOn.1.leds, led.isOn = true ∧ led.offTimer.active = false)
        ∧ ui.turnAllLEDsOn.1.leds.map (fun led => led.currentColor)
            = ui.leds.map (fun led => if led.isOn then led.currentColor else Color.white)
        ∧ ui.turnAllLEDsOn.1.nextLedId = ui.nextLedId
        ∧ ui.turnAllLEDsOn.1.leds.length = ui.leds.length) := by
  refine ⟨?_, ?_, ?_⟩
  · intro h
    unfold UserInterface.turnAllLEDsOn
    rw [if_pos h]
  · intro h1 h2
    unfold UserInterface.turnAllLEDsOn
    rw [if_neg (by simp [h1]), if_pos h2]
  · intro hall
    have hne : ui.leds.isEmpty = false := by
      cases hleds : ui.leds with
      | nil => rw [hleds] at hall; simp at hall
      | cons a l => rfl
    have hres : ui.turnAllLEDsOn
        = ({ ui with leds := ui.leds.map (fun led =>
            (if led.isOn then led else led.setColor Color.white).stopOffTimer) },
          UIReport.success) := by
      unfold UserInterface.turnAllLEDsOn
      rw [if_neg (by simp [hne]), if_neg (by simp [hall])]
    rw [hres]
    refine ⟨rfl, ?_, ?_, rfl, by simp⟩
    · intro led hled
      rw [List.mem_map] at hled
      obtain ⟨x, hx, rfl⟩ := hled
      refine ⟨?_, rfl⟩
      by_cases hxon : x.isOn = true
      · rw [if_pos hxon]
        exact hxon
      · rw [if_neg hxon]
        rfl
    · rw [List.map_map]
      apply List.map_congr_left
      intro x hx
      by_cases hxon : x.isOn = true
      · simp only [Function.comp]
        rw [if_pos hxon, if_pos hxon]
        rfl
      · simp only [Function.comp]
        rw [if_neg hxon, if_neg hxon]
        rfl

/-- Witness for the C3 theorem: a three-LED collection (all off) is
bulk-turned on with success and every LED ends on with its auto-off
timer stopped; the empty initial collection reports noLEDs and is left
unchanged. -/
theorem turnAllOn_witness :
    ((((UserInterface.init.addNewLED).addNewLED).addNewLED).turnAllLEDsOn.2
        = UIReport.success)
    ∧ (∀ led ∈ (((UserInterface.init.addNewLED).addNewLED).addNewLED).turnAllLEDsOn.1.leds,
        led.isOn = true ∧ led.offTimer.active = false)
    ∧ UserInterface.init.turnAllLEDsOn = (UserInterface.init, UIReport.noLEDs) :=
  ⟨((turnAllOn_spec (((UserInterface.init.addNewLED).addNewLED).addNewLED)).2.2
      (by decide)).1,
    ((turnAllOn_spec (((UserInterface.init.addNewLED).addNewLED).addNewLED)).2.2
      (by decide)).2.1,
    (turnAllOn_spec UserInterface.init).1 (by decide)⟩

/-- Claim C6: changeAllLEDsColor reports noLEDs on an empty
collection and noneOn when no LED is on, in both cases leaving the
state unchanged; otherwise a cancelled or invalid pick leaves the
whole state unchanged (no partial application), and a valid picked
color is applied to exactly the on LEDs, off LEDs keeping their
color, with membership and nextLedId untouched. -/
theorem changeAllColor_spec (ui : UserInterface) (pick : Option Color) :
    (ui.leds.isEmpty = true → ui.changeAllLEDsColor pick = (ui, UIReport.noLEDs))
    ∧ (ui.leds.isEmpty = false → (ui.leds.any fun led => led.isOn) = false →
        ui.changeAllLEDsColor pick = (ui, UIReport.noneOn))
    ∧ ((ui.leds.any fun led => led.isOn) = true →
        ui.changeAllLEDsColor none = (ui, UIReport.cancelled)
        ∧ ∀ c : Color,
            (ui.changeAllLEDsColor (some c)).2 = UIReport.success
            ∧ (ui.changeAllLEDsColor (some c)).1.leds.map (fun led => led.currentColor)
                = ui.leds.map (fun led => if led.isOn then c else led.currentColor)
            ∧ (ui.changeAllLEDsColor (some c)).1.leds.length = ui.leds.length
            ∧ (ui.changeAllLEDsColor (some c)).1.nextLedId = ui.nextLedId) := by
  refine ⟨?_, ?_, ?_⟩
  · intro h
    unfold UserInterface.changeAllLEDsColor
    rw [if_pos h]
  · intro h1 h2
    unfold UserInterface.changeAllLEDsColor
    rw [if_neg (by simp [h1]), if_pos (by simp [h2])]
  · intro hany
    have hne : ui.leds.isEmpty = false := by
      cases hleds : ui.leds with
      | nil => rw [hleds] at hany; simp at hany
      | cons a l => rfl
    constructor
    · unfold UserInterface.changeAllLEDsColor
      simp [hne, hany]
    · intro c
      have hres : ui.changeAllLEDsColor (some c)
          = ({ ui with leds := ui.leds.map (fun led =>
              if led.isOn then led.setColor c else led) },
            UIReport.success) := by
        unfold UserInterface.changeAllLEDsColor
        rw [if_neg (by simp [hne]), if_neg (by simp [hany])]
      rw [hres]
      refine ⟨rfl, ?_, by simp, rfl⟩
      rw [List.map_map]
      apply List.map_congr_left
      intro x hx
      by_cases hxon : x.isOn = true <;>
        simp [Function.comp, hxon, VirtualLED.setColor]

/-- Witness for the C6 theorem: three LEDs bulk-turned on, then
recolored. A cancelled pick leaves the state unchanged; a red pick
turns the color list into red everywhere. -/
theorem changeAllColor_witness :
    ((((UserInterface.init.addNewLED).addNewLED).addNewLED).turnAllLEDsOn.1.changeAllLEDsColor
        none
      = ((((UserInterface.init.addNewLED).addNewLED).addNewLED).turnAllLEDsOn.1,
          UIReport.cancelled))
    ∧ (((((UserInterface.init.addNewLED).addNewLED).addNewLED).turnAllLEDsOn.1.changeAllLEDsColor
          (some Color.red)).1.leds.map (fun led => led.currentColor)
        = (((UserInterface.init.addNewLED).addNewLED).addNewLED).turnAllLEDsOn.1.leds.map
            (fun led => if led.isOn then Color.red else led.currentColor)) :=
  ⟨((changeAllColor_spec
        ((((UserInterface.init.addNewLED).addNewLED).addNewLED).turnAllLEDsOn.1) none).2.2
      (by decide)).1,
    ((((changeAllColor_spec
        ((((UserInterface.init.addNewLED).addNewLED).addNewLED).turnAllLEDsOn.1)
        (some Color.red)).2.2 (by decide)).2 Color.red).2.1)⟩

/-- Claim C4: on a collection whose ids are duplicate-free, removeLED
with a present id removes exactly the LED carrying that id (the
surviving payloads, in original relative order, are the original list
filtered of that id), renumbers the survivors 1..n in that order, and
re-derives nextLedId as n + 1; removeLED with an absent id leaves the
state completely unchanged. -/
theorem removeLED_spec (ui : UserInterface) (id : Int)
    (hN : (ledIds ui.leds).Nodup) :
    ((ui.leds.any fun led => led.ledId == id) = true →
      (ui.removeLED id).leds.map VirtualLED.core
          = (ui.leds.filter fun led => !(led.ledId == id)).map VirtualLED.core
      ∧ ledIds (ui.removeLED id).leds = idsFrom 1 (ui.leds.length - 1)
      ∧ (ui.removeLED id).nextLedId = ((ui.leds.length - 1 : Nat) : Int) + 1)
    ∧ ((ui.leds.any fun led => led.ledId == id) = false → ui.removeLED id = ui) := by
  constructor
  · intro hmem
    have hfind : ∃ x, ui.findLEDById id = some x := by
      have hnn : ui.findLEDById id ≠ none := by
        intro hcontra
        rw [findLEDById_none_iff] at hcontra
        rw [hcontra] at hmem
        exact Bool.false_ne_true hmem
      cases hx : ui.findLEDById id with
      | none => exact absurd hx hnn
      | some x => exact ⟨x, rfl⟩
    obtain ⟨x, hx⟩ := hfind
    have hred : ui.removeLED id
        = UserInterface.reassignLEDIds { ui with leds := removeFirstById id ui.leds } := by
      unfold UserInterface.removeLED
      rw [hx]
    rw [hred]
    have hlen := length_removeFirstById id ui.leds hmem
    refine ⟨?_, ?_, ?_⟩
    · show (renumberFrom 1 (removeFirstById id ui.leds)).map VirtualLED.core
          = (ui.leds.filter fun led => !(led.ledId == id)).map VirtualLED.core
      rw [core_renumberFrom, removeFirstById_eq_filter id ui.leds hN hmem]
    · show ledIds (renumberFrom 1 (removeFirstById id ui.leds))
          = idsFrom 1 (ui.leds.length - 1)
      rw [ledIds_renumberFrom, hlen]
    · show ((removeFirstById id ui.leds).length : Int) + 1
          = ((ui.leds.length - 1 : Nat) : Int) + 1
      rw [hlen]
  · intro hno
    unfold UserInterface.removeLED
    rw [(findLEDById_none_iff ui id).mpr hno]

/-- Witness for the C4 theorem on the scenario of the specification:
three added LEDs (ids 1, 2, 3); removing id 2 leaves ids 1, 2 and
nextLedId 3; removing the absent id 5 changes nothing. -/
theorem removeLED_witness :
    ledIds ((((UserInterface.init.addNewLED).addNewLED).addNewLED).removeLED 2).leds
        = idsFrom 1 ((((UserInterface.init.addNewLED).addNewLED).addNewLED).leds.length - 1)
    ∧ ((((UserInterface.init.addNewLED).addNewLED).addNewLED).removeLED 2).nextLedId
        = ((((((UserInterface.init.addNewLED).addNewLED).addNewLED).leds.length
            - 1 : Nat)) : Int) + 1
    ∧ (((UserInterface.init.addNewLED).addNewLED).addNewLED).removeLED 5
        = ((UserInterface.init.addNewLED).addNewLED).addNewLED :=
  ⟨((removeLED_spec (((UserInterface.init.addNewLED).addNewLED).addNewLED) 2
        (by decide)).1 (by decide)).2.1,
    ((removeLED_spec (((UserInterface.init.addNewLED).addNewLED).addNewLED) 2
        (by decide)).1 (by decide)).2.2,
    (removeLED_spec (((UserInterface.init.addNewLED).addNewLED).addNewLED) 5
        (by decide)).2 (by decide)⟩

end Pilluminate
